import Mathlib

/-!
Shallow embedding of `src/environments/openspiel/llm_bot.py` (class `LLMBot`):
the per-turn decision pipeline of an LLM-backed OpenSpiel bot.

Modelling conventions:
* The seeded numpy `RandomState` is modelled as an infinite stream of natural
  numbers together with a cursor (`Rng`); `numpy.random.RandomState.choice xs`
  draws the next stream value `n` and returns `xs[n % xs.length]`.  On an
  empty list `choice` raises `ValueError` in Python; here it returns `none`.
* The injected async `llm_chat_fn`, as observed through the retry loop, is a
  function from the attempt index to that attempt outcome: success with
  `(response, usage)`, a timeout (`concurrent.futures.TimeoutError`), or any
  other exception carrying its rendered message.
* Python dictionaries for usage are `Option UsageRec` with three optional
  fields; `usage.get(k, 0)` is `Option.getD`; the falsy test `if usage:`
  is the `none` case (a `None` or empty dict adds nothing either way).
* A Python exception escaping `step` is modelled by `step` returning `none`
  as the chosen action while still returning the mutated bot state (the
  mutations performed before the raise persist on the object).
-/

namespace LLMBotModel

/-- One entry of `self._conversation`: a dict with keys `role`, `content`. -/
structure Msg where
  role : String
  content : String
deriving Repr, DecidableEq

/-- The `self._last_error` record: keys `prompt`, `error`, `attempts`. -/
structure ErrorRec where
  prompt : String
  error : String
  attempts : Nat
deriving Repr, DecidableEq

/-- The `self._total_usage` accumulator with its three counters. -/
structure Usage where
  prompt_tokens : Nat
  completion_tokens : Nat
  total_tokens : Nat
deriving Repr, DecidableEq

/-- A usage dictionary returned by the LLM; each field may be missing. -/
structure UsageRec where
  prompt_tokens : Option Nat
  completion_tokens : Option Nat
  total_tokens : Option Nat
deriving Repr, DecidableEq

/-- Model of the seeded `numpy.random.RandomState`: an infinite stream of
draws plus a cursor.  Seeding with `rng_seed` fixes the stream. -/
structure Rng where
  seq : Nat → Nat
  idx : Nat

/-- `rng.choice xs`: uniform draw from `xs`.  The stream value selects the
index modulo the length; an empty list raises (`none`). -/
def Rng.choice (r : Rng) (xs : List Int) : Option (Int × Rng) :=
  match xs.get? (r.seq r.idx % xs.length) with
  | some a => some (a, ⟨r.seq, r.idx + 1⟩)
  | none => none

/-- The per-episode mutable fields of `LLMBot` (plus the private rng, which
survives `restart_at`). -/
structure BotState where
  action_history : List (Int × Int)
  conversation : List Msg
  last_error : Option ErrorRec
  total_usage : Usage
  rng : Rng

/-- `LLMBot.__init__`: fresh episode state with a seeded rng stream. -/
def initBot (seq : Nat → Nat) : BotState :=
  { action_history := []
    conversation := []
    last_error := none
    total_usage := ⟨0, 0, 0⟩
    rng := ⟨seq, 0⟩ }

/-- The `pyspiel.Game` facts the bot reads: `get_type().short_name` and
`num_players()`. -/
structure Game where
  short_name : String
  num_players : Nat

/-- The `pyspiel` state interface the bot consumes: `str(state)`,
`state.legal_actions(pid)` and `state.action_to_string(pid, a)`. -/
structure GameState where
  render : String
  legalActions : Int → List Int
  action_to_string : Int → Int → String

/-- Outcome of one attempt of the injected `llm_chat_fn` as seen by the
retry loop in `step`. -/
inductive LLMResult where
  | success (response : String) (usage : Option UsageRec)
  | timeout
  | failure (msg : String)
deriving Repr, DecidableEq

def LLMResult.isSuccess : LLMResult → Bool
  | .success _ _ => true
  | _ => false

/-- `max_retries = 3` in `step`. -/
def max_retries : Nat := 3

/-- `call_timeout = 120` in `step`. -/
def call_timeout : Nat := 120

/-- The timeout error message built in the `TimeoutError` handler. -/
def timeoutErrorMsg : String :=
  "LLM call timeout after " ++ toString call_timeout ++ "s"

/-- The `error` string stored in `_last_error` for a failed attempt: the
timeout message for a timeout, the rendered exception text otherwise. -/
def errorMsgOf : LLMResult → String
  | .timeout => timeoutErrorMsg
  | .failure m => m
  | .success _ _ => ""

/-- Usage accumulation block of `step` (lines 119-124): skipped when the
usage dict is falsy, otherwise each key is added with default 0. -/
def addUsage (t : Usage) (u : Option UsageRec) : Usage :=
  match u with
  | none => t
  | some r =>
      ⟨t.prompt_tokens + r.prompt_tokens.getD 0,
       t.completion_tokens + r.completion_tokens.getD 0,
       t.total_tokens + r.total_tokens.getD 0⟩

/-- Python `\w` on ASCII: letters, digits, underscore. -/
def isWordChar (c : Char) : Bool := c.isAlphanum || c = '_'

/-- `int` of a digit string. -/
def natOfDigits (l : List Char) : Nat :=
  l.foldl (fun n c => n * 10 + (c.toNat - 48)) 0

/-- `re.search(r"\b(\d+)\b", s)` followed by `int(match.group(1))`:
scan positions left to right; a match starts at a digit preceded by a
non-word character (or the start) and its maximal digit run must be
followed by a non-word character (or the end).  Shorter runs never help,
because they would end before another digit. -/
def findIntTok (prev : Option Char) : List Char → Option Nat
  | [] => none
  | c :: cs =>
      if c.isDigit && (match prev with
          | none => true
          | some p => !(isWordChar p)) then
        let rest := List.dropWhile Char.isDigit (c :: cs)
        if (match rest with
            | [] => true
            | d :: _ => !(isWordChar d)) then
          some (natOfDigits (List.takeWhile Char.isDigit (c :: cs)))
        else findIntTok (some c) cs
      else findIntTok (some c) cs

/-- ASCII whitespace as stripped by `str.strip()`. -/
def isPySpace (c : Char) : Bool :=
  c = ' ' || c = '\t' || c = '\n' || c = '\r' || c = '\x0b' || c = '\x0c'

/-- `str.strip()`. -/
def pyStrip (s : String) : String :=
  ⟨((s.data.dropWhile isPySpace).reverse.dropWhile isPySpace).reverse⟩

/-- `LLMBot._parse_action`: first standalone integer of the stripped
response if it is legal, otherwise a uniform random legal action. -/
def parse_action (rng : Rng) (response : String) (legal_actions : List Int) :
    Option (Int × Rng) :=
  match findIntTok none (pyStrip response).data with
  | some n =>
      if (Int.ofNat n) ∈ legal_actions then some (Int.ofNat n, rng)
      else rng.choice legal_actions
  | none => rng.choice legal_actions

/-- The ASCII apostrophe character (code 39), used when transcribing the
prompt texts. -/
def apos : String := String.singleton (Char.ofNat 39)

/-- Whitespace splitter of `str.split()`: maximal non-space runs, empties
dropped.  `acc` holds the current word reversed. -/
def splitWSAux (acc : List Char) : List Char → List (List Char)
  | [] => if acc.isEmpty then [] else [acc.reverse]
  | c :: cs =>
      if isPySpace c then
        if acc.isEmpty then splitWSAux [] cs
        else acc.reverse :: splitWSAux [] cs
      else splitWSAux (c :: acc) cs

/-- `str.split()` with no argument. -/
def pySplit (s : String) : List String :=
  (splitWSAux [] s.data).map (fun l => ⟨l⟩)

/-- `str.isdigit()` on ASCII: non-empty and all digits. -/
def pyIsDigit (s : String) : Bool :=
  !(s.data.isEmpty) && s.data.all Char.isDigit

/-- The `id: description` lines enumerating the legal actions. -/
def actionsDesc (st : GameState) (player_id : Int) : List String :=
  (st.legalActions player_id).map (fun a =>
    toString a ++ ": " ++ st.action_to_string player_id a)

/-- `LLMBot._generate_default_prompt`. -/
def generate_default_prompt (game : Game) (st : GameState) (player_id : Int) :
    String :=
  "You are playing " ++ game.short_name ++
  ".\n\nCurrent game state:\n" ++ st.render ++
  "\n\nYou are Player " ++ toString player_id ++
  ".\n\nLegal actions:\n" ++
  String.intercalate "\n" (actionsDesc st player_id) ++
  "\n\nChoose one action by responding with ONLY the action number.\nYour choice: "

/-- The per-face count lines of the first-turn prompt (`for face in
range(1, 7)` loop). -/
def diceCountLines (my_dice : List Nat) : String :=
  String.join ((List.range 6).map (fun i =>
    let face := i + 1
    let count := my_dice.count face
    "  " ++ toString face ++ "s: " ++ toString count ++ " dice" ++
    (if face = 1 ∧ 0 < count then " (WILD - counts as any face)" else "") ++
    "\n"))

/-- `LLMBot._generate_liars_dice_prompt`. -/
def generate_liars_dice_prompt (game : Game) (st : GameState)
    (player_id : Int) (is_first_turn : Bool) : String :=
  let parts := pySplit st.render
  let my_dice_str := match parts with
    | [] => ""
    | p :: _ => p
  let my_dice : List Nat :=
    if pyIsDigit my_dice_str then my_dice_str.data.map (fun c => c.toNat - 48)
    else []
  let bid_history := if parts.length > 1 then parts.tail else []
  let acts := String.intercalate "\n" (actionsDesc st player_id)
  let num_players := game.num_players
  let dice_per_player := my_dice.length
  let total_dice := num_players * dice_per_player
  if is_first_turn then
    "You are playing LIAR" ++ apos ++ "S DICE - A bluffing and deduction game." ++
    "\n\n=== GAME RULES ===\nPlayers: " ++ toString num_players ++
    " players\nDice per player: " ++ toString dice_per_player ++
    " dice (values 1-6)\nTotal dice in game: " ++ toString total_dice ++
    " dice\n\nHOW TO PLAY:\n1. Each player has their own dice (hidden from others)" ++
    "\n2. Players take turns making BIDS about the total dice across ALL players" ++
    "\n3. A bid is \"quantity-face\" (e.g., \"3-5\" means \"at least three 5s exist among all " ++
    toString total_dice ++ " dice\")" ++
    "\n4. SPECIAL RULE: 1s are WILD - they count as any face value" ++
    "\n5. Each bid must be HIGHER than the previous:" ++
    "\n   - Higher quantity with any face, OR" ++
    "\n   - Same quantity with higher face value" ++
    "\n6. Instead of bidding higher, you can call \"Liar\" to challenge the previous bid" ++
    "\n7. If you call \"Liar\": count all dice; if bid was FALSE, bidder loses; if TRUE, caller loses" ++
    "\n\nSTRATEGY TIPS:\n- You can see your own " ++ toString dice_per_player ++
    " dice\n- Estimate what others might have (each die has 1/6 chance of any face)" ++
    "\n- Remember: 1s are wild and count toward any face" ++
    "\n- Conservative bids are safer; aggressive bids apply pressure" ++
    "\n\n=== YOUR CURRENT SITUATION ===\nYour dice: " ++
    String.intercalate ", " (my_dice.map toString) ++
    "\nYour dice count by face:\n" ++
    diceCountLines my_dice ++
    "\nBid history: None (you" ++ apos ++ "re making the opening bid)" ++
    "\n\nYOUR TASK:\nMake an opening bid. Choose conservatively based on your dice." ++
    "\nSince you have " ++ toString (my_dice.count 1) ++
    " wild 1s, you can bid on faces you don" ++ apos ++ "t have." ++
    "\n\nLegal actions:\n" ++ acts ++
    "\n\nRespond with ONLY the action number.\nYour choice: "
  else
    let current_bid := match bid_history.getLast? with
      | some b => b
      | none => "None"
    "LIAR" ++ apos ++ "S DICE - Player " ++ toString player_id ++ apos ++
    "s Turn\n\nYour dice (" ++ toString dice_per_player ++ " dice): " ++
    String.intercalate ", " (my_dice.map toString) ++
    "\nTotal dice in game: " ++ toString total_dice ++
    "\nCurrent bid: " ++ current_bid ++
    "\n\nBid history: " ++
    (if bid_history.isEmpty then "None"
     else String.intercalate " → " bid_history) ++
    "\n\nRemember: 1s are WILD (count as any face)" ++
    "\n\nLegal actions:\n" ++ acts ++
    "\n\nRespond with ONLY the action number.\nYour choice: "

/-- `LLMBot._generate_prompt`: dispatch by game identifier; first turn is
detected by an empty conversation. -/
def generate_prompt (game : Game) (player_id : Int) (bot : BotState)
    (st : GameState) : String :=
  let is_first_turn := bot.conversation.length == 0
  if game.short_name = "liars_dice" then
    generate_liars_dice_prompt game st player_id is_first_turn
  else
    generate_default_prompt game st player_id

/-- Exit status of the `for attempt in range(max_retries)` loop of `step`:
`success` is the `break` after a successful call (conversation appended and
usage accumulated inside the `try` body), `fallback` is the `return` from
the last-attempt exception handler (last error recorded), `exhausted` is
the loop running out of iterations without `break` or `return` (cannot
happen when started with fuel `max_retries`).  `calls` counts the attempts
made. -/
inductive LoopOutcome where
  | success (response : String) (usage : Option UsageRec) (calls : Nat)
      (bot : BotState)
  | fallback (calls : Nat) (bot : BotState)
  | exhausted (bot : BotState)

/-- The retry loop of `step` (lines 109-168).  `fuel` is the number of
remaining iterations of `range(max_retries)`; `step` enters with
`fuel = max_retries` and `attempt = 0`. -/
def retryLoop (prompt : String) (llm : Nat → LLMResult) :
    Nat → Nat → BotState → LoopOutcome
  | 0, _, bot => LoopOutcome.exhausted bot
  | fuel + 1, attempt, bot =>
      match llm attempt with
      | LLMResult.success response usage =>
          LoopOutcome.success response usage (attempt + 1)
            { bot with
              conversation := bot.conversation ++
                [⟨"user", prompt⟩, ⟨"assistant", response⟩]
              total_usage := addUsage bot.total_usage usage }
      | r =>
          if attempt < max_retries - 1 then
            retryLoop prompt llm fuel (attempt + 1) bot
          else
            LoopOutcome.fallback (attempt + 1)
              { bot with
                last_error := some ⟨prompt, errorMsgOf r, max_retries⟩ }

/-- `LLMBot.step`: build the prompt, run the retry loop, then either draw
the terminal random fallback, or parse the response and record the action.
The first component is the returned action; `none` models an exception
escaping to the caller (random choice from an empty legal list).  The
second component is the bot state after the call, with all mutations made
before any raise. -/
def step (game : Game) (player_id : Int) (st : GameState)
    (llm : Nat → LLMResult) (bot : BotState) : Option Int × BotState :=
  let prompt := generate_prompt game player_id bot st
  match retryLoop prompt llm max_retries 0 bot with
  | LoopOutcome.fallback _ bot1 =>
      match bot1.rng.choice (st.legalActions player_id) with
      | some (a, r) => (some a, { bot1 with rng := r })
      | none => (none, bot1)
  | LoopOutcome.success response _ _ bot1 =>
      match parse_action bot1.rng response (st.legalActions player_id) with
      | some (a, r) =>
          (some a,
           { bot1 with
             rng := r
             action_history := bot1.action_history ++ [(player_id, a)] })
      | none => (none, bot1)
  | LoopOutcome.exhausted bot1 => (none, bot1)

/-- `LLMBot.restart_at`: reset every episode field; the rng is kept. -/
def restart_at (bot : BotState) (_state : GameState) : BotState :=
  { bot with
    action_history := []
    conversation := []
    last_error := none
    total_usage := ⟨0, 0, 0⟩ }

/-- `LLMBot.inform_action`: record another move in the action history. -/
def inform_action (bot : BotState) (_state : GameState)
    (player_id action : Int) : BotState :=
  { bot with action_history := bot.action_history ++ [(player_id, action)] }

/-- Whether `pat` occurs contiguously at the head of `txt`. -/
def leadsWith : List Char → List Char → Bool
  | [], _ => true
  | _ :: _, [] => false
  | a :: as, b :: bs => a == b && leadsWith as bs

/-- Whether `pat` occurs contiguously anywhere in `txt`. -/
def occursIn (pat : List Char) : List Char → Bool
  | [] => leadsWith pat []
  | s :: rest => leadsWith pat (s :: rest) || occursIn pat rest

/-- `t` is a contiguous substring of `s`. -/
def strHasSub (s t : String) : Bool := occursIn t.data s.data

/-! ## Supporting lemmas -/


lemma choice_nil (r : Rng) : r.choice [] = none := rfl

lemma choice_mem {r : Rng} {xs : List Int} (h : xs ≠ []) :
    ∃ a r', r.choice xs = some (a, r') ∧ a ∈ xs := by
  have hlen : 0 < xs.length := List.length_pos.mpr h
  have hi : r.seq r.idx % xs.length < xs.length := Nat.mod_lt _ hlen
  refine ⟨xs.get ⟨_, hi⟩, ⟨r.seq, r.idx + 1⟩, ?_, List.get_mem _ _ hi⟩
  unfold Rng.choice
  rw [List.get?_eq_get hi]

lemma retryLoop_success_at_0 (prompt : String) (llm : Nat → LLMResult)
    (bot : BotState) (resp : String) (usage : Option UsageRec)
    (h : llm 0 = LLMResult.success resp usage) :
    retryLoop prompt llm max_retries 0 bot =
      LoopOutcome.success resp usage 1
        { bot with
          conversation := bot.conversation ++
            [⟨"user", prompt⟩, ⟨"assistant", resp⟩]
          total_usage := addUsage bot.total_usage usage } := by
  simp [max_retries, retryLoop, h]



lemma retryLoop_all_fail (prompt : String) (llm : Nat → LLMResult)
    (bot : BotState) (hf : ∀ k, k < max_retries → (llm k).isSuccess = false) :
    retryLoop prompt llm max_retries 0 bot =
      LoopOutcome.fallback max_retries
        { bot with
          last_error := some ⟨prompt, errorMsgOf (llm (max_retries - 1)),
            max_retries⟩ } := by
  have h0 := hf 0 (by simp [max_retries])
  have h1 := hf 1 (by simp [max_retries])
  have h2 := hf 2 (by simp [max_retries])
  cases e0 : llm 0 with
  | success r u => rw [e0] at h0; simp [LLMResult.isSuccess] at h0
  | timeout =>
      cases e1 : llm 1 with
      | success r u => rw [e1] at h1; simp [LLMResult.isSuccess] at h1
      | timeout =>
          cases e2 : llm 2 with
          | success r u => rw [e2] at h2; simp [LLMResult.isSuccess] at h2
          | timeout => simp [max_retries, retryLoop, e0, e1, e2]
          | failure m => simp [max_retries, retryLoop, e0, e1, e2]
      | failure m =>
          cases e2 : llm 2 with
          | success r u => rw [e2] at h2; simp [LLMResult.isSuccess] at h2
          | timeout => simp [max_retries, retryLoop, e0, e1, e2]
          | failure m2 => simp [max_retries, retryLoop, e0, e1, e2]
  | failure m =>
      cases e1 : llm 1 with
      | success r u => rw [e1] at h1; simp [LLMResult.isSuccess] at h1
      | timeout =>
          cases e2 : llm 2 with
          | success r u => rw [e2] at h2; simp [LLMResult.isSuccess] at h2
          | timeout => simp [max_retries, retryLoop, e0, e1, e2]
          | failure m2 => simp [max_retries, retryLoop, e0, e1, e2]
      | failure m1 =>
          cases e2 : llm 2 with
          | success r u => rw [e2] at h2; simp [LLMResult.isSuccess] at h2
          | timeout => simp [max_retries, retryLoop, e0, e1, e2]
          | failure m2 => simp [max_retries, retryLoop, e0, e1, e2]



lemma retryLoop_success_at_1 (prompt : String) (llm : Nat → LLMResult)
    (bot : BotState) (resp : String) (usage : Option UsageRec)
    (h0 : (llm 0).isSuccess = false)
    (h : llm 1 = LLMResult.success resp usage) :
    retryLoop prompt llm max_retries 0 bot =
      LoopOutcome.success resp usage 2
        { bot with
          conversation := bot.conversation ++
            [⟨"user", prompt⟩, ⟨"assistant", resp⟩]
          total_usage := addUsage bot.total_usage usage } := by
  cases e0 : llm 0 with
  | success r u => rw [e0] at h0; simp [LLMResult.isSuccess] at h0
  | timeout => simp [max_retries, retryLoop, e0, h]
  | failure m => simp [max_retries, retryLoop, e0, h]

lemma retryLoop_success_at_2 (prompt : String) (llm : Nat → LLMResult)
    (bot : BotState) (resp : String) (usage : Option UsageRec)
    (h0 : (llm 0).isSuccess = false) (h1 : (llm 1).isSuccess = false)
    (h : llm 2 = LLMResult.success resp usage) :
    retryLoop prompt llm max_retries 0 bot =
      LoopOutcome.success resp usage 3
        { bot with
          conversation := bot.conversation ++
            [⟨"user", prompt⟩, ⟨"assistant", resp⟩]
          total_usage := addUsage bot.total_usage usage } := by
  cases e0 : llm 0 with
  | success r u => rw [e0] at h0; simp [LLMResult.isSuccess] at h0
  | timeout =>
      cases e1 : llm 1 with
      | success r u => rw [e1] at h1; simp [LLMResult.isSuccess] at h1
      | timeout => simp [max_retries, retryLoop, e0, e1, h]
      | failure m => simp [max_retries, retryLoop, e0, e1, h]
  | failure m =>
      cases e1 : llm 1 with
      | success r u => rw [e1] at h1; simp [LLMResult.isSuccess] at h1
      | timeout => simp [max_retries, retryLoop, e0, e1, h]
      | failure m1 => simp [max_retries, retryLoop, e0, e1, h]

lemma retryLoop_first_success (prompt : String) (llm : Nat → LLMResult)
    (bot : BotState) (k : Nat) (resp : String) (usage : Option UsageRec)
    (hk : k < max_retries) (hs : llm k = LLMResult.success resp usage)
    (hb : ∀ j, j < k → (llm j).isSuccess = false) :
    retryLoop prompt llm max_retries 0 bot =
      LoopOutcome.success resp usage (k + 1)
        { bot with
          conversation := bot.conversation ++
            [⟨"user", prompt⟩, ⟨"assistant", resp⟩]
          total_usage := addUsage bot.total_usage usage } := by
  rw [max_retries] at hk
  interval_cases k
  · exact retryLoop_success_at_0 prompt llm bot resp usage hs
  · exact retryLoop_success_at_1 prompt llm bot resp usage
      (hb 0 (by omega)) hs
  · exact retryLoop_success_at_2 prompt llm bot resp usage
      (hb 0 (by omega)) (hb 1 (by omega)) hs

lemma exists_first_success (llm : Nat → LLMResult)
    (h : ∃ k, k < max_retries ∧ (llm k).isSuccess = true) :
    ∃ k resp usage, k < max_retries ∧ llm k = LLMResult.success resp usage ∧
      ∀ j, j < k → (llm j).isSuccess = false := by
  classical
  obtain ⟨k, hk, hs⟩ := h
  have hex : ∃ m, (llm m).isSuccess = true ∧ m < max_retries := ⟨k, hs, hk⟩
  obtain ⟨hfs, hflt⟩ := Nat.find_spec hex
  refine ⟨Nat.find hex, ?_⟩
  cases e : llm (Nat.find hex) with
  | success r u =>
      refine ⟨r, u, hflt, rfl, fun j hj => ?_⟩
      have hmin := Nat.find_min hex hj
      cases hb : (llm j).isSuccess with
      | false => rfl
      | true => exact absurd ⟨hb, by omega⟩ hmin
  | timeout => rw [e] at hfs; simp [LLMResult.isSuccess] at hfs
  | failure m => rw [e] at hfs; simp [LLMResult.isSuccess] at hfs



lemma parse_action_mem (rng : Rng) (resp : String) {legal : List Int}
    (h : legal ≠ []) :
    ∃ a r', parse_action rng resp legal = some (a, r') ∧ a ∈ legal := by
  unfold parse_action
  cases hf : findIntTok none (pyStrip resp).data with
  | none => exact choice_mem h
  | some n =>
      by_cases hm : (Int.ofNat n) ∈ legal
      · exact ⟨Int.ofNat n, rng, if_pos hm, hm⟩
      · simp only [if_neg hm]
        exact choice_mem h

lemma step_mem_of_ne (game : Game) (player_id : Int) (st : GameState)
    (llm : Nat → LLMResult) (bot : BotState)
    (h : st.legalActions player_id ≠ []) :
    ∃ a bot', step game player_id st llm bot = (some a, bot') ∧
      a ∈ st.legalActions player_id := by
  unfold step
  dsimp only
  cases hr : retryLoop (generate_prompt game player_id bot st) llm max_retries 0 bot with
  | fallback calls bot1 =>
      obtain ⟨a, r', hc, hmem⟩ := choice_mem (r := bot1.rng) h
      exact ⟨a, { bot1 with rng := r' }, by simp [hc], hmem⟩
  | success resp usage calls bot1 =>
      obtain ⟨a, r', hp, hmem⟩ := parse_action_mem bot1.rng resp h
      exact ⟨a,
        { bot1 with
          rng := r'
          action_history := bot1.action_history ++ [(player_id, a)] },
        by simp [hp], hmem⟩
  | exhausted bot1 =>
      exfalso
      by_cases hs : ∃ k, k < max_retries ∧ (llm k).isSuccess = true
      · obtain ⟨k, resp, usage, hk, he, hb⟩ := exists_first_success llm hs
        rw [retryLoop_first_success _ llm bot k resp usage hk he hb] at hr
        exact LoopOutcome.noConfusion hr
      · push_neg at hs
        have hf : ∀ k, k < max_retries → (llm k).isSuccess = false := by
          intro k hk
          cases hb : (llm k).isSuccess with
          | false => rfl
          | true => exact absurd hb (by simpa using hs k hk)
        rw [retryLoop_all_fail _ llm bot hf] at hr
        exact LoopOutcome.noConfusion hr


/-! ## Claim theorems -/


lemma parse_action_nil (rng : Rng) (resp : String) :
    parse_action rng resp [] = none := by
  unfold parse_action
  cases findIntTok none (pyStrip resp).data with
  | none => rfl
  | some n => simp [Rng.choice]

lemma parse_action_fail_eq (rng : Rng) (resp : String) (legal : List Int)
    (h : findIntTok none (pyStrip resp).data = none ∨
      ∃ n, findIntTok none (pyStrip resp).data = some n ∧
        (Int.ofNat n) ∉ legal) :
    parse_action rng resp legal = rng.choice legal := by
  unfold parse_action
  rcases h with h | ⟨n, hn, hm⟩
  · rw [h]
  · rw [hn]
    exact if_neg hm

lemma step_all_fail_eq (game : Game) (player_id : Int) (st : GameState)
    (llm : Nat → LLMResult) (bot : BotState)
    (hf : ∀ k, k < max_retries → (llm k).isSuccess = false) :
    step game player_id st llm bot =
      (let bot1 : BotState :=
        { bot with
          last_error := some ⟨generate_prompt game player_id bot st,
            errorMsgOf (llm (max_retries - 1)), max_retries⟩ }
      match bot1.rng.choice (st.legalActions player_id) with
      | some (a, r) => (some a, { bot1 with rng := r })
      | none => (none, bot1)) := by
  unfold step
  dsimp only
  rw [retryLoop_all_fail _ llm bot hf]

lemma step_first_success_eq (game : Game) (player_id : Int) (st : GameState)
    (llm : Nat → LLMResult) (bot : BotState) (k : Nat) (resp : String)
    (usage : Option UsageRec)
    (hk : k < max_retries) (hs : llm k = LLMResult.success resp usage)
    (hb : ∀ j, j < k → (llm j).isSuccess = false) :
    step game player_id st llm bot =
      (let prompt := generate_prompt game player_id bot st
      let bot1 : BotState :=
        { bot with
          conversation := bot.conversation ++
            [⟨"user", prompt⟩, ⟨"assistant", resp⟩]
          total_usage := addUsage bot.total_usage usage }
      match parse_action bot1.rng resp (st.legalActions player_id) with
      | some (a, r) =>
          (some a,
           { bot1 with
             rng := r
             action_history := bot1.action_history ++ [(player_id, a)] })
      | none => (none, bot1)) := by
  unfold step
  dsimp only
  rw [retryLoop_first_success _ llm bot k resp usage hk hs hb]



/-- C1: for every state and every non-empty legal action set, `step`
returns an action id that is a member of that legal action set, on every
path (parsed answer, parse fallback, or terminal retry fallback; the
universally quantified `llm` covers them all). -/
theorem step_returns_member_of_legal (game : Game) (player_id : Int)
    (st : GameState) (llm : Nat → LLMResult) (bot : BotState)
    (h : st.legalActions player_id ≠ []) :
    ∃ a bot', step game player_id st llm bot = (some a, bot') ∧
      a ∈ st.legalActions player_id :=
  step_mem_of_ne game player_id st llm bot h

def exGame : Game := { short_name := "g", num_players := 2 }

def emptyState : GameState :=
  { render := "s"
    legalActions := fun _ => []
    action_to_string := fun _ a => toString a }

def exState : GameState :=
  { render := "s"
    legalActions := fun _ => [5, 7, 9]
    action_to_string := fun _ a => toString a }

def exBot : BotState := initBot (fun _ => 1)

/-- Witness for C1 at a concrete input. -/
theorem step_returns_member_of_legal_witness :
    exState.legalActions 0 ≠ [] ∧
    ∃ a bot', step exGame 0 exState (fun _ => LLMResult.timeout) exBot =
      (some a, bot') ∧ a ∈ exState.legalActions 0 :=
  ⟨by decide,
   step_returns_member_of_legal exGame 0 exState (fun _ => LLMResult.timeout)
     exBot (by decide)⟩

/-- C3: if every attempt fails, `step` makes exactly `max_retries = 3`
attempts, then returns a uniform random legal action drawn from the
private rng, records the prompt, the error description and the attempt
count in the last error, and does not raise. -/
theorem step_exhausted_retries (game : Game) (player_id : Int)
    (st : GameState) (llm : Nat → LLMResult) (bot : BotState)
    (hf : ∀ k, k < max_retries → (llm k).isSuccess = false)
    (hne : st.legalActions player_id ≠ []) :
    ∃ a r',
      bot.rng.choice (st.legalActions player_id) = some (a, r') ∧
      a ∈ st.legalActions player_id ∧
      step game player_id st llm bot =
        (some a,
         { bot with
           last_error := some ⟨generate_prompt game player_id bot st,
             errorMsgOf (llm (max_retries - 1)), max_retries⟩
           rng := r' }) ∧
      retryLoop (generate_prompt game player_id bot st) llm max_retries 0 bot =
        LoopOutcome.fallback max_retries
          { bot with
            last_error := some ⟨generate_prompt game player_id bot st,
              errorMsgOf (llm (max_retries - 1)), max_retries⟩ } := by
  obtain ⟨a, r', hc, hmem⟩ := choice_mem (r := bot.rng) hne
  refine ⟨a, r', hc, hmem, ?_, retryLoop_all_fail _ llm bot hf⟩
  rw [step_all_fail_eq game player_id st llm bot hf]
  dsimp only
  rw [hc]

/-- Witness for C3 at a concrete input: an always-timing-out LLM. -/
theorem step_exhausted_retries_witness :
    (∀ k, k < max_retries →
      ((fun _ => LLMResult.timeout) k).isSuccess = false) ∧
    exState.legalActions 0 ≠ [] ∧
    ∃ a r',
      exBot.rng.choice (exState.legalActions 0) = some (a, r') ∧
      a ∈ exState.legalActions 0 ∧
      step exGame 0 exState (fun _ => LLMResult.timeout) exBot =
        (some a,
         { exBot with
           last_error := some ⟨generate_prompt exGame 0 exBot exState,
             errorMsgOf ((fun _ => LLMResult.timeout) (max_retries - 1)),
             max_retries⟩
           rng := r' }) ∧
      retryLoop (generate_prompt exGame 0 exBot exState)
          (fun _ => LLMResult.timeout) max_retries 0 exBot =
        LoopOutcome.fallback max_retries
          { exBot with
            last_error := some ⟨generate_prompt exGame 0 exBot exState,
              errorMsgOf ((fun _ => LLMResult.timeout) (max_retries - 1)),
              max_retries⟩ } :=
  ⟨fun _ _ => rfl, by decide,
   step_exhausted_retries exGame 0 exState (fun _ => LLMResult.timeout) exBot
     (fun _ _ => rfl) (by decide)⟩



/-- C9: when every attempt fails, the turn leaves the conversation
transcript, the cumulative usage and the action history unchanged; the
only episode field written is the last error. -/
theorem step_terminal_fallback_frame (game : Game) (player_id : Int)
    (st : GameState) (llm : Nat → LLMResult) (bot : BotState)
    (hf : ∀ k, k < max_retries → (llm k).isSuccess = false) :
    (step game player_id st llm bot).2.conversation = bot.conversation ∧
    (step game player_id st llm bot).2.total_usage = bot.total_usage ∧
    (step game player_id st llm bot).2.action_history = bot.action_history ∧
    (step game player_id st llm bot).2.last_error =
      some ⟨generate_prompt game player_id bot st,
        errorMsgOf (llm (max_retries - 1)), max_retries⟩ := by
  rw [step_all_fail_eq game player_id st llm bot hf]
  dsimp only
  cases bot.rng.choice (st.legalActions player_id) with
  | none => exact ⟨rfl, rfl, rfl, rfl⟩
  | some p =>
      cases p with
      | mk a r => exact ⟨rfl, rfl, rfl, rfl⟩

/-- Witness for C9 at a concrete input: an always-raising LLM. -/
theorem step_terminal_fallback_frame_witness :
    (∀ k, k < max_retries →
      ((fun _ => LLMResult.failure "boom") k).isSuccess = false) ∧
    ((step exGame 0 exState (fun _ => LLMResult.failure "boom") exBot).2.conversation
        = exBot.conversation ∧
     (step exGame 0 exState (fun _ => LLMResult.failure "boom") exBot).2.total_usage
        = exBot.total_usage ∧
     (step exGame 0 exState (fun _ => LLMResult.failure "boom") exBot).2.action_history
        = exBot.action_history ∧
     (step exGame 0 exState (fun _ => LLMResult.failure "boom") exBot).2.last_error
        = some ⟨generate_prompt exGame 0 exBot exState,
            errorMsgOf ((fun _ => LLMResult.failure "boom") (max_retries - 1)),
            max_retries⟩) :=
  ⟨fun _ _ => rfl,
   step_terminal_fallback_frame exGame 0 exState
     (fun _ => LLMResult.failure "boom") exBot (fun _ _ => rfl)⟩

/-- C10: with an empty legal action set both fallbacks raise instead of
returning an action (`none` models the escaping `ValueError` of
`numpy.random.choice` on an empty sequence), and the postcondition of
returning one legal action holds whenever the set is non-empty. -/
theorem fallback_requires_nonempty_legal (game : Game) (player_id : Int)
    (st : GameState) (llm : Nat → LLMResult) (bot : BotState)
    (resp : String) (usage : Option UsageRec) :
    (st.legalActions player_id = [] →
      (∀ k, k < max_retries → (llm k).isSuccess = false) →
      (step game player_id st llm bot).1 = none) ∧
    (st.legalActions player_id = [] →
      llm 0 = LLMResult.success resp usage →
      (step game player_id st llm bot).1 = none) ∧
    (st.legalActions player_id ≠ [] →
      ∃ a, (step game player_id st llm bot).1 = some a ∧
        a ∈ st.legalActions player_id) ∧
    (∀ r : Rng, r.choice [] = none) := by
  refine ⟨?_, ?_, ?_, choice_nil⟩
  · intro he hf
    rw [step_all_fail_eq game player_id st llm bot hf]
    dsimp only
    rw [he, choice_nil]
  · intro he hs
    rw [step_first_success_eq game player_id st llm bot 0 resp usage
      (by simp [max_retries]) hs (fun j hj => absurd hj (Nat.not_lt_zero j))]
    dsimp only
    rw [he, parse_action_nil]
  · intro hne
    obtain ⟨a, bot', heq, hmem⟩ := step_mem_of_ne game player_id st llm bot hne
    exact ⟨a, by rw [heq], hmem⟩

/-- Witness for C10: empty legal set makes both paths raise; the
non-empty set yields a legal action. -/
theorem fallback_requires_nonempty_legal_witness :
    (emptyState.legalActions 0 = [] ∧
      (∀ k, k < max_retries →
        ((fun _ => LLMResult.timeout) k).isSuccess = false) ∧
      (step exGame 0 emptyState (fun _ => LLMResult.timeout) exBot).1 = none) ∧
    (emptyState.legalActions 0 = [] ∧
      (fun _ => LLMResult.success "7" none) 0 = LLMResult.success "7" none ∧
      (step exGame 0 emptyState (fun _ => LLMResult.success "7" none) exBot).1
        = none) ∧
    (exState.legalActions 0 ≠ [] ∧
      ∃ a, (step exGame 0 exState (fun _ => LLMResult.timeout) exBot).1 = some a ∧
        a ∈ exState.legalActions 0) :=
  ⟨⟨by decide, fun _ _ => rfl,
    (fallback_requires_nonempty_legal exGame 0 emptyState
      (fun _ => LLMResult.timeout) exBot "" none).1 (by decide) (fun _ _ => rfl)⟩,
   ⟨by decide, rfl,
    (fallback_requires_nonempty_legal exGame 0 emptyState
      (fun _ => LLMResult.success "7" none) exBot "7" none).2.1 (by decide) rfl⟩,
   ⟨by decide,
    (fallback_requires_nonempty_legal exGame 0 exState
      (fun _ => LLMResult.timeout) exBot "" none).2.2.1 (by decide)⟩⟩



/-- Counterexample to C2 as stated: on the terminal retry fallback the
chosen action (here 7) is returned without the pair (0, 7) being appended
to the action history — the history stays empty. -/
theorem step_fallback_skips_record :
    (step exGame 0 exState (fun _ => LLMResult.timeout) exBot).1 = some 7 ∧
    (step exGame 0 exState (fun _ => LLMResult.timeout) exBot).2.action_history
      = [] ∧
    ((0 : Int), (7 : Int)) ∉
      (step exGame 0 exState (fun _ => LLMResult.timeout) exBot).2.action_history := by
  refine ⟨rfl, rfl, ?_⟩
  decide

/-- C2 amended: the (own player id, chosen action) pair is appended to the
action history when the action came from parsing the LLM response
(including the parse fallback); on the terminal retry fallback after
exhausted attempts the action is returned without being recorded. -/
theorem step_records_action_on_parse_path (game : Game) (player_id : Int)
    (st : GameState) (llm : Nat → LLMResult) (bot : BotState) :
    ((∃ k, k < max_retries ∧ (llm k).isSuccess = true) →
      ∀ a bot', step game player_id st llm bot = (some a, bot') →
        bot'.action_history = bot.action_history ++ [(player_id, a)]) ∧
    ((∀ k, k < max_retries → (llm k).isSuccess = false) →
      ∀ a bot', step game player_id st llm bot = (some a, bot') →
        bot'.action_history = bot.action_history) := by
  constructor
  · intro hs a bot' heq
    obtain ⟨k, resp, usage, hk, he, hb⟩ := exists_first_success llm hs
    rw [step_first_success_eq game player_id st llm bot k resp usage hk he hb]
      at heq
    dsimp only at heq
    cases hp : parse_action bot.rng resp (st.legalActions player_id) with
    | none => rw [hp] at heq; simp at heq
    | some p =>
        cases p with
        | mk a0 r =>
            rw [hp] at heq
            have h1 : some a0 = some a := congrArg Prod.fst heq
            have h2 := congrArg Prod.snd heq
            dsimp only at h1 h2
            rw [← h2]
            dsimp only
            rw [Option.some.injEq] at h1
            rw [h1]
  · intro hf a bot' heq
    rw [step_all_fail_eq game player_id st llm bot hf] at heq
    dsimp only at heq
    cases hc : bot.rng.choice (st.legalActions player_id) with
    | none => rw [hc] at heq; simp at heq
    | some p =>
        cases p with
        | mk a0 r =>
            rw [hc] at heq
            have h2 := congrArg Prod.snd heq
            dsimp at h2
            rw [← h2]



/-- Witness for the amended C2: a successful turn appends the pair. -/
theorem step_records_action_on_parse_path_witness :
    (∃ k, k < max_retries ∧
      ((fun _ => LLMResult.success "7" none) k).isSuccess = true) ∧
    (step exGame 0 exState (fun _ => LLMResult.success "7" none)
        exBot).2.action_history = exBot.action_history ++ [(0, 7)] :=
  ⟨⟨0, by decide, rfl⟩,
   (step_records_action_on_parse_path exGame 0 exState
       (fun _ => LLMResult.success "7" none) exBot).1 ⟨0, by decide, rfl⟩ 7
     (step exGame 0 exState (fun _ => LLMResult.success "7" none) exBot).2 rfl⟩

/-- C8: when the LLM call succeeds but the response text yields no legal
action, the turn resolves through the random fallback of the parser and
the last error is left exactly as it was before the turn. -/
theorem parse_failure_leaves_last_error (game : Game) (player_id : Int)
    (st : GameState) (llm : Nat → LLMResult) (bot : BotState) (k : Nat)
    (resp : String) (usage : Option UsageRec)
    (hk : k < max_retries) (hs : llm k = LLMResult.success resp usage)
    (hb : ∀ j, j < k → (llm j).isSuccess = false)
    (hparse : findIntTok none (pyStrip resp).data = none ∨
      ∃ n, findIntTok none (pyStrip resp).data = some n ∧
        (Int.ofNat n) ∉ st.legalActions player_id)
    (hne : st.legalActions player_id ≠ []) :
    ∃ a r', bot.rng.choice (st.legalActions player_id) = some (a, r') ∧
      (step game player_id st llm bot).1 = some a ∧
      (step game player_id st llm bot).2.last_error = bot.last_error := by
  obtain ⟨a, r', hc, hmem⟩ := choice_mem (r := bot.rng) hne
  refine ⟨a, r', hc, ?_, ?_⟩ <;>
    rw [step_first_success_eq game player_id st llm bot k resp usage hk hs hb] <;>
    dsimp only <;>
    rw [parse_action_fail_eq _ _ _ hparse] <;>
    rw [hc]

/-- Witness for C8: a successful call answering text with no integer. -/
theorem parse_failure_leaves_last_error_witness :
    (0 < max_retries) ∧
    ((fun _ => LLMResult.success "no idea" none) 0 =
      LLMResult.success "no idea" none) ∧
    (findIntTok none (pyStrip "no idea").data = none ∨
      ∃ n, findIntTok none (pyStrip "no idea").data = some n ∧
        (Int.ofNat n) ∉ exState.legalActions 0) ∧
    (exState.legalActions 0 ≠ []) ∧
    ∃ a r', exBot.rng.choice (exState.legalActions 0) = some (a, r') ∧
      (step exGame 0 exState (fun _ => LLMResult.success "no idea" none)
        exBot).1 = some a ∧
      (step exGame 0 exState (fun _ => LLMResult.success "no idea" none)
        exBot).2.last_error = exBot.last_error :=
  ⟨by decide, rfl, Or.inl (by decide), by decide,
   parse_failure_leaves_last_error exGame 0 exState
     (fun _ => LLMResult.success "no idea" none) exBot 0 "no idea" none
     (by decide) rfl (fun j hj => absurd hj (Nat.not_lt_zero j))
     (Or.inl (by decide)) (by decide)⟩

/-- C4: the parser takes the first standalone integer token of the
stripped text; if it exists and is legal it is returned with the rng
untouched; otherwise the parser returns the uniform random draw from the
private rng; on a non-empty legal set it never raises and always yields a
member. -/
theorem parse_action_first_standalone_int (rng : Rng) (resp : String)
    (legal : List Int) (hne : legal ≠ []) :
    (∀ n, findIntTok none (pyStrip resp).data = some n →
      (Int.ofNat n) ∈ legal →
      parse_action rng resp legal = some (Int.ofNat n, rng)) ∧
    ((findIntTok none (pyStrip resp).data = none ∨
      ∃ n, findIntTok none (pyStrip resp).data = some n ∧
        (Int.ofNat n) ∉ legal) →
      parse_action rng resp legal = rng.choice legal) ∧
    (∃ a r', parse_action rng resp legal = some (a, r') ∧ a ∈ legal) := by
  refine ⟨?_, parse_action_fail_eq rng resp legal, parse_action_mem rng resp hne⟩
  intro n hn hm
  unfold parse_action
  rw [hn]
  exact if_pos hm

/-- Witness for C4: the text mentions 12 inside a word, then the legal
action 7; the parser returns 7. -/
theorem parse_action_first_standalone_int_witness :
    ([(5 : Int), 7, 9] ≠ []) ∧
    (findIntTok none (pyStrip "a12 then 7 ok").data = some 7) ∧
    parse_action exBot.rng "a12 then 7 ok" [5, 7, 9] =
      some (Int.ofNat 7, exBot.rng) :=
  ⟨by decide, by decide,
   (parse_action_first_standalone_int exBot.rng "a12 then 7 ok" [5, 7, 9]
       (by decide)).1 7 (by decide) (by decide)⟩



lemma addUsage_le (t : Usage) (u : Option UsageRec) :
    t.prompt_tokens ≤ (addUsage t u).prompt_tokens ∧
    t.completion_tokens ≤ (addUsage t u).completion_tokens ∧
    t.total_tokens ≤ (addUsage t u).total_tokens := by
  cases u with
  | none => exact ⟨le_refl _, le_refl _, le_refl _⟩
  | some r =>
      exact ⟨Nat.le_add_right _ _, Nat.le_add_right _ _, Nat.le_add_right _ _⟩

lemma not_success_forall (llm : Nat → LLMResult)
    (hs : ¬ ∃ k, k < max_retries ∧ (llm k).isSuccess = true) :
    ∀ k, k < max_retries → (llm k).isSuccess = false := by
  intro k hk
  push_neg at hs
  cases hb : (llm k).isSuccess with
  | false => rfl
  | true => exact absurd hb (hs k hk)

lemma step_usage_le (game : Game) (player_id : Int) (st : GameState)
    (llm : Nat → LLMResult) (bot : BotState) :
    bot.total_usage.prompt_tokens ≤
      (step game player_id st llm bot).2.total_usage.prompt_tokens ∧
    bot.total_usage.completion_tokens ≤
      (step game player_id st llm bot).2.total_usage.completion_tokens ∧
    bot.total_usage.total_tokens ≤
      (step game player_id st llm bot).2.total_usage.total_tokens := by
  by_cases hs : ∃ k, k < max_retries ∧ (llm k).isSuccess = true
  · obtain ⟨k, resp, usage, hk, he, hb⟩ := exists_first_success llm hs
    rw [step_first_success_eq game player_id st llm bot k resp usage hk he hb]
    dsimp only
    cases parse_action bot.rng resp (st.legalActions player_id) with
    | none => exact addUsage_le bot.total_usage usage
    | some p =>
        cases p with
        | mk a r => exact addUsage_le bot.total_usage usage
  · rw [step_all_fail_eq game player_id st llm bot (not_success_forall llm hs)]
    dsimp only
    cases bot.rng.choice (st.legalActions player_id) with
    | none => exact ⟨le_refl _, le_refl _, le_refl _⟩
    | some p =>
        cases p with
        | mk a r => exact ⟨le_refl _, le_refl _, le_refl _⟩

/-- C7: within an episode each cumulative usage counter is monotonically
non-decreasing under every operation — `step` with any injected LLM
behaviour and `inform_action` — and only the episode reset `restart_at`
returns all three counters to zero. -/
theorem usage_counters_monotone (game : Game) (player_id : Int)
    (st st2 st3 : GameState) (llm : Nat → LLMResult) (bot : BotState)
    (pid2 a2 : Int) :
    (bot.total_usage.prompt_tokens ≤
        (step game player_id st llm bot).2.total_usage.prompt_tokens ∧
      bot.total_usage.completion_tokens ≤
        (step game player_id st llm bot).2.total_usage.completion_tokens ∧
      bot.total_usage.total_tokens ≤
        (step game player_id st llm bot).2.total_usage.total_tokens) ∧
    (inform_action bot st2 pid2 a2).total_usage = bot.total_usage ∧
    (restart_at bot st3).total_usage = ⟨0, 0, 0⟩ :=
  ⟨step_usage_le game player_id st llm bot, rfl, rfl⟩



def usageA : Option UsageRec := some ⟨some 10, some 5, some 15⟩

def usageB : Option UsageRec := some ⟨some 7, some 3, some 10⟩

def usageC : Option UsageRec := some ⟨some 4, none, none⟩

def botAfterA : BotState :=
  (step exGame 0 exState (fun _ => LLMResult.success "7" usageA) exBot).2

def botAfterB : BotState :=
  (step exGame 0 exState (fun _ => LLMResult.success "9" usageB) botAfterA).2

def botAfterC : BotState :=
  (step exGame 0 exState (fun _ => LLMResult.success "5" usageC) botAfterB).2

/-- C6: from a fresh episode, two successful turns with usage
(10, 5, 15) and (7, 3, 10) leave the totals at (17, 8, 25); a further
turn whose usage record carries only a prompt count treats the missing
fields as zero; `restart_at` returns the totals to (0, 0, 0). -/
theorem usage_accumulation_scenario :
    botAfterA.total_usage = ⟨10, 5, 15⟩ ∧
    botAfterB.total_usage = ⟨17, 8, 25⟩ ∧
    botAfterC.total_usage = ⟨21, 8, 25⟩ ∧
    (restart_at botAfterB exState).total_usage = ⟨0, 0, 0⟩ := by
  refine ⟨?_, ?_, ?_, ?_⟩ <;> rfl



def ldGame : Game := { short_name := "liars_dice", num_players := 2 }

/-- First turn of the bidding example: private dice 1, 1, 3, no bids. -/
def ldStateFirst : GameState :=
  { render := "113"
    legalActions := fun _ => [0, 1, 2]
    action_to_string := fun _ a => "bid " ++ toString a }

/-- A later state: same dice, bids 2-5 then 3-2 in the rendered text. -/
def ldStateLater : GameState :=
  { render := "113 2-5 3-2"
    legalActions := fun _ => [3, 4]
    action_to_string := fun _ a => "bid " ++ toString a }

/-- Bot with a non-empty conversation, so the next turn is not first. -/
def ldBotLater : BotState :=
  { exBot with conversation := [⟨"user", "p"⟩, ⟨"assistant", "2"⟩] }

set_option maxRecDepth 100000 in
/-- C5: the first-turn prompt for dice [1,1,3] contains the rules section
and reports exactly two wild (value-1) dice; the later-turn prompt with a
non-empty bid history omits the rules section and shows exactly the most
recent bid, 3-2, as the current bid. -/
theorem liars_dice_prompt_scenario :
    strHasSub (generate_prompt ldGame 0 exBot ldStateFirst)
      "=== GAME RULES ===" = true ∧
    strHasSub (generate_prompt ldGame 0 exBot ldStateFirst)
      "  1s: 2 dice (WILD - counts as any face)" = true ∧
    strHasSub (generate_prompt ldGame 0 exBot ldStateFirst)
      "Since you have 2 wild 1s" = true ∧
    strHasSub (generate_prompt ldGame 0 ldBotLater ldStateLater)
      "=== GAME RULES ===" = false ∧
    strHasSub (generate_prompt ldGame 0 ldBotLater ldStateLater)
      "Current bid: 3-2\n" = true ∧
    strHasSub (generate_prompt ldGame 0 ldBotLater ldStateLater)
      "Current bid: 2-5" = false := by
  refine ⟨?_, ?_, ?_, ?_, ?_, ?_⟩ <;> rfl


end LLMBotModel
